import Mathlib

/-!
Verification of the weather-retrieval tool of this repository
(`tools/weather_tools.py`, function `get_weather`).

The embedding models:
  * JSON values as an inductive type (strings, integers, booleans,
    arrays, objects as association lists, null);
  * the Python dictionary/list operations the code uses (`.get` with a
    default, subscript `[0]`) together with the exceptions they raise
    (`AttributeError`, `IndexError`, `KeyError`, `TypeError`);
  * the httpx layer abstractly as an outcome: either the decoded JSON
    body, or a raised exception, with the httpx exception-class
    hierarchy encoded by `PyExc.isHTTPError` (timeouts, connection
    errors and `raise_for_status` errors are `httpx.HTTPError`
    subclasses; JSON-decoding errors are not);
  * `get_weather` itself as a pure function from the input location and
    the HTTP outcome to a trace recording the outbound request URLs and
    the returned dictionary (the Python function is a straight-line
    `try`/`except` with a single `client.get`, no loop, no global
    state).

String normalization (`location.strip().replace(" ", "+")`) is modelled
character by character: `strip` drops leading and trailing whitespace,
with `pyIsSpace` encoding the exact set of code points CPython's
`str.isspace()` accepts (and `str.strip()` therefore removes), and
`replace(" ", "+")` with a one-character pattern maps each space
character to a plus sign.
-/

/-- JSON values, as produced by `response.json()`.  Objects are
association lists; `json.loads` yields unique keys, and lookup takes the
first match. -/
inductive Json where
  | str (s : String)
  | num (n : Int)
  | bool (b : Bool)
  | arr (xs : List Json)
  | obj (kvs : List (String × Json))
  | null


/-- The Python type name of a JSON value, as it appears in exception
messages. -/
def Json.typeName : Json → String
  | .str _ => "str"
  | .num _ => "int"
  | .bool _ => "bool"
  | .arr _ => "list"
  | .obj _ => "dict"
  | .null => "NoneType"

/-- Exceptions the extraction code can raise. -/
inductive PyErr where
  | indexError
  | keyError (k : String)
  | attributeError (tname attr : String)
  | typeError (tname : String)


/-- `str(e)` for each extraction-level exception. -/
def PyErr.msg : PyErr → String
  | .indexError => "list index out of range"
  | .keyError k => k
  | .attributeError t a => "'" ++ t ++ "' object has no attribute '" ++ a ++ "'"
  | .typeError t => "'" ++ t ++ "' object is not subscriptable"

/-- Python `v.get(key, default)`: only dictionaries have `.get`; any
other receiver raises `AttributeError`. -/
def pyGet (v : Json) (key : String) (default : Json) : Except PyErr Json :=
  match v with
  | .obj kvs =>
    match kvs.lookup key with
    | some w => .ok w
    | none => .ok default
  | other => .error (.attributeError other.typeName "get")

/-- Python `v[0]`: first element of a list (raising `IndexError` when
empty), first character of a string, `KeyError` on a dictionary without
the key `0`, `TypeError` otherwise. -/
def pyIndex0 (v : Json) : Except PyErr Json :=
  match v with
  | .arr (x :: _) => .ok x
  | .arr [] => .error .indexError
  | .str s =>
    match s.toList with
    | c :: _ => .ok (.str (String.mk [c]))
    | [] => .error .indexError
  | .obj _ => .error (.keyError "0")
  | other => .error (.typeError other.typeName)

/-- The ten fields of the dictionary `weather_data` built on success, in
source order. -/
structure WeatherRecord where
  location : Json
  area_name : Json
  country : Json
  temperature_f : Json
  temperature_c : Json
  condition : Json
  humidity : Json
  wind_speed_mph : Json
  feels_like_f : Json
  observation_time : Json


/-- The `weather_data` dictionary, keys in source order. -/
def WeatherRecord.toDict (r : WeatherRecord) : List (String × Json) :=
  [("location", r.location),
   ("area_name", r.area_name),
   ("country", r.country),
   ("temperature_f", r.temperature_f),
   ("temperature_c", r.temperature_c),
   ("condition", r.condition),
   ("humidity", r.humidity),
   ("wind_speed_mph", r.wind_speed_mph),
   ("feels_like_f", r.feels_like_f),
   ("observation_time", r.observation_time)]

/-- The recurring idiom `v.get(key, [{}])[0].get("value", default)`. -/
def getFirstValue (v : Json) (key : String) (default : Json) : Except PyErr Json := do
  pyGet (← pyIndex0 (← pyGet v key (.arr [.obj []]))) "value" default

/-- Lines 45-63 of `weather_tools.py`: extraction of the weather fields
from the decoded JSON body.  Any exception propagates (to be caught by
the `except` clauses of `get_weather`). -/
def extractWeather (location : String) (data : Json) : Except PyErr WeatherRecord := do
  let current ← pyIndex0 (← pyGet data "current_condition" (.arr [.obj []]))
  let location_info ← pyIndex0 (← pyGet data "nearest_area" (.arr [.obj []]))
  let area_name ← getFirstValue location_info "areaName" (.str location)
  let country ← getFirstValue location_info "country" (.str "Unknown")
  let temperature_f ← pyGet current "temp_F" (.str "N/A")
  let temperature_c ← pyGet current "temp_C" (.str "N/A")
  let condition ← getFirstValue current "weatherDesc" (.str "N/A")
  let humidity ← pyGet current "humidity" (.str "N/A")
  let wind_speed_mph ← pyGet current "windspeedMiles" (.str "N/A")
  let feels_like_f ← pyGet current "FeelsLikeF" (.str "N/A")
  let observation_time ← pyGet current "observation_time" (.str "N/A")
  pure ⟨.str location, area_name, country, temperature_f, temperature_c,
        condition, humidity, wind_speed_mph, feels_like_f, observation_time⟩

/-- Exceptions the HTTP layer can raise.  In httpx, `TimeoutException`,
`ConnectError` and `HTTPStatusError` (from `raise_for_status`) are all
subclasses of `httpx.HTTPError`; a JSON-decoding failure from
`response.json()` is a `ValueError`, not an `httpx.HTTPError`. -/
inductive PyExc where
  | httpxTimeout (msg : String)
  | httpxConnectError (msg : String)
  | httpxStatusError (msg : String)
  | jsonDecodeError (msg : String)
  | otherError (msg : String)


/-- Whether the exception is an instance of `httpx.HTTPError` (the class
matched by the first `except` clause). -/
def PyExc.isHTTPError : PyExc → Bool
  | .httpxTimeout _ => true
  | .httpxConnectError _ => true
  | .httpxStatusError _ => true
  | .jsonDecodeError _ => false
  | .otherError _ => false

/-- `str(e)` for an HTTP-layer exception. -/
def PyExc.msg : PyExc → String
  | .httpxTimeout m => m
  | .httpxConnectError m => m
  | .httpxStatusError m => m
  | .jsonDecodeError m => m
  | .otherError m => m

/-- Outcome of `client.get(url)`, `response.raise_for_status()` and
`response.json()` taken together: either the decoded JSON body, or a
raised exception. -/
inductive HttpOutcome where
  | ok (data : Json)
  | raised (e : PyExc)


/-- Python `c.isspace()`, the exact character set `str.strip()` removes:
the ASCII whitespace characters, the information separators
U+001C-U+001F, NEL, NBSP, and the Unicode space and line/paragraph
separators (CPython yields true on precisely these 29 code points). -/
def pyIsSpace (c : Char) : Bool :=
  c = ' ' || c = '\t' || c = '\n' || c = '\x0d' || c = '\x0b' || c = '\x0c'
  || c = '\x1c' || c = '\x1d' || c = '\x1e' || c = '\x1f'
  || c = '\x85' || c = '\xa0'
  || c = '\u1680' || c = '\u2000' || c = '\u2001' || c = '\u2002'
  || c = '\u2003' || c = '\u2004' || c = '\u2005' || c = '\u2006'
  || c = '\u2007' || c = '\u2008' || c = '\u2009' || c = '\u200a'
  || c = '\u2028' || c = '\u2029' || c = '\u202f' || c = '\u205f'
  || c = '\u3000'

/-- Python `s.strip()`: drop leading and trailing whitespace. -/
def pyStrip (s : String) : String :=
  String.mk (((s.toList.dropWhile pyIsSpace).reverse.dropWhile pyIsSpace).reverse)

/-- A single character of `replace(" ", "+")`. -/
def sp2plus (c : Char) : Char :=
  if c = ' ' then '+' else c

/-- Python `s.replace(" ", "+")`: with a one-character pattern, each
space character is replaced independently. -/
def pyReplaceSpacePlus (s : String) : String :=
  String.mk (s.toList.map sp2plus)

/-- Line 35: `location_clean = location.strip().replace(" ", "+")`. -/
def location_clean (location : String) : String :=
  pyReplaceSpacePlus (pyStrip location)

/-- Line 36: the outbound request URL. -/
def url (location : String) : String :=
  "https://wttr.in/" ++ location_clean location ++ "?format=j1"

/-- `timeout=10.0` on line 38, in seconds. -/
def timeout_seconds : Nat := 10

/-- What a call to `get_weather` did: the URLs of the outbound GET
requests it issued, and the dictionary it returned. -/
structure CallTrace where
  requests : List String
  result : List (String × Json)


/-- The error dictionary built by the two `except` clauses. -/
def errorDict (msg location : String) : List (String × Json) :=
  [("error", .str msg), ("location", .str location)]

/-- `get_weather` (lines 33-73): one GET request to `url location`, then
either the extracted record, or — when the HTTP layer or the extraction
raised — the error dictionary of the matching `except` clause.
`except httpx.HTTPError` catches exactly the `httpx.HTTPError`
instances; `except Exception` catches everything else, including the
extraction-level exceptions. -/
def get_weather (location : String) (outcome : HttpOutcome) : CallTrace :=
  { requests := [url location]
    result :=
      match outcome with
      | .raised e =>
        if e.isHTTPError then
          errorDict ("Failed to fetch weather data: " ++ e.msg) location
        else
          errorDict ("Unexpected error: " ++ e.msg) location
      | .ok data =>
        match extractWeather location data with
        | .ok r => r.toDict
        | .error pe => errorDict ("Unexpected error: " ++ pe.msg) location }

/-- The ten keys of a `WeatherRecord` dictionary, in source order. -/
def recordKeys : List String :=
  ["location", "area_name", "country", "temperature_f", "temperature_c",
   "condition", "humidity", "wind_speed_mph", "feels_like_f", "observation_time"]

/-- A dictionary shaped like a WeatherRecord: exactly the ten fixed keys
and no error key. -/
def isWeatherRecordDict (d : List (String × Json)) : Prop :=
  d.map Prod.fst = recordKeys ∧ "error" ∉ d.map Prod.fst

/-- A dictionary shaped like a WeatherError: it has an error key and a
location key. -/
def isWeatherErrorDict (d : List (String × Json)) : Prop :=
  "error" ∈ d.map Prod.fst ∧ "location" ∈ d.map Prod.fst

instance (d : List (String × Json)) : Decidable (isWeatherRecordDict d) := by
  unfold isWeatherRecordDict; infer_instance

instance (d : List (String × Json)) : Decidable (isWeatherErrorDict d) := by
  unfold isWeatherErrorDict; infer_instance

/-- Modelled from the spec: the normalization the spec describes — trim
surrounding whitespace and replace each internal whitespace run with a
single join character "+" — used to compare the source's normalization
against the spec's words. -/
def specNormalize (s : String) : String :=
  String.mk (List.intercalate ['+']
    ((s.toList.splitOnP pyIsSpace).filter (fun w => !w.isEmpty)))

/- Records used by concrete witnesses. -/

/-- The record extracted from an empty JSON object for location "Tokyo":
every upstream-derived field is at its default. -/
def tokyoRecord : WeatherRecord :=
  ⟨.str "Tokyo", .str "Tokyo", .str "Unknown", .str "N/A", .str "N/A",
   .str "N/A", .str "N/A", .str "N/A", .str "N/A", .str "N/A"⟩

/-- The record extracted from an empty JSON object for location "Osaka". -/
def osakaRecord : WeatherRecord :=
  ⟨.str "Osaka", .str "Osaka", .str "Unknown", .str "N/A", .str "N/A",
   .str "N/A", .str "N/A", .str "N/A", .str "N/A", .str "N/A"⟩

/-- An upstream body whose current-conditions collection is present but an
empty list. -/
def emptyCurrentData : Json :=
  .obj [("current_condition", Json.arr []),
        ("nearest_area", Json.arr [Json.obj
          [("areaName", Json.arr [Json.obj [("value", Json.str "London")]]),
           ("country", Json.arr [Json.obj [("value", Json.str "UK")]])]])]

/- Helper lemmas for the normalization theorems. -/

lemma dropWhile_sp_replicate_append (k : Nat) (l : List Char) :
    (List.replicate k ' ' ++ l).dropWhile pyIsSpace = l.dropWhile pyIsSpace := by
  induction k with
  | zero => simp
  | succ j ih => simp [List.replicate_succ, List.dropWhile_cons, pyIsSpace, ih]

lemma rdropWhile_sp_append_replicate (m : Nat) (l : List Char) :
    List.rdropWhile pyIsSpace (l ++ List.replicate m ' ')
      = List.rdropWhile pyIsSpace l := by
  induction m with
  | zero => simp
  | succ j ih =>
    rw [show l ++ List.replicate (j + 1) ' ' = (l ++ List.replicate j ' ') ++ [' '] by
      simp [List.replicate_succ' j ' ', List.append_assoc]]
    rw [List.rdropWhile_concat_pos _ _ ' ' (by simp [pyIsSpace])]
    exact ih

lemma map_sp2plus_of_nospace {l : List Char} (h : ∀ c ∈ l, ¬ pyIsSpace c) :
    l.map sp2plus = l := by
  induction l with
  | nil => rfl
  | cons c t ih =>
    have hc : c ≠ ' ' := by
      intro hcsp
      exact h c (by simp) (by simp [hcsp, pyIsSpace])
    simp [sp2plus, hc, ih (fun x hx => h x (by simp [hx]))]

/-- `pyStrip`, phrased with `List.rdropWhile`. -/
lemma pyStrip_eq_rdropWhile (s : String) :
    pyStrip s = String.mk (List.rdropWhile pyIsSpace (s.toList.dropWhile pyIsSpace)) :=
  rfl

lemma pyStrip_sandwich (w1 w2 : List Char) (k n m : Nat)
    (h1 : w1 ≠ []) (h2 : w2 ≠ [])
    (hw1 : ∀ c ∈ w1, ¬ pyIsSpace c) (hw2 : ∀ c ∈ w2, ¬ pyIsSpace c) :
    pyStrip (String.mk (List.replicate k ' ' ++ w1 ++ List.replicate n ' '
        ++ w2 ++ List.replicate m ' '))
      = String.mk (w1 ++ List.replicate n ' ' ++ w2) := by
  obtain ⟨c1, t1, rfl⟩ := List.exists_cons_of_ne_nil h1
  rcases List.eq_nil_or_concat' w2 with rfl | ⟨t2, c2, rfl⟩
  · exact absurd rfl h2
  have hc1 : pyIsSpace c1 = false := by simpa using hw1 c1 (by simp)
  have hc2 : pyIsSpace c2 = false := by simpa using hw2 c2 (by simp)
  rw [pyStrip_eq_rdropWhile]
  apply congrArg String.mk
  show List.rdropWhile pyIsSpace
      ((List.replicate k ' ' ++ (c1 :: t1) ++ List.replicate n ' '
        ++ (t2 ++ [c2]) ++ List.replicate m ' ').dropWhile pyIsSpace)
    = (c1 :: t1) ++ List.replicate n ' ' ++ (t2 ++ [c2])
  rw [show List.replicate k ' ' ++ (c1 :: t1) ++ List.replicate n ' '
        ++ (t2 ++ [c2]) ++ List.replicate m ' '
      = List.replicate k ' '
        ++ (c1 :: (t1 ++ List.replicate n ' ' ++ t2 ++ [c2] ++ List.replicate m ' ')) by
    simp [List.append_assoc]]
  rw [dropWhile_sp_replicate_append]
  rw [List.dropWhile_cons_of_neg (by simp [hc1])]
  rw [show c1 :: (t1 ++ List.replicate n ' ' ++ t2 ++ [c2] ++ List.replicate m ' ')
      = (c1 :: (t1 ++ List.replicate n ' ' ++ t2 ++ [c2])) ++ List.replicate m ' ' by
    simp [List.append_assoc]]
  rw [rdropWhile_sp_append_replicate]
  rw [show c1 :: (t1 ++ List.replicate n ' ' ++ t2 ++ [c2])
      = (c1 :: (t1 ++ List.replicate n ' ' ++ t2)) ++ [c2] by
    simp [List.append_assoc]]
  rw [List.rdropWhile_concat_neg _ _ c2 (by simp [hc2])]
  simp [List.append_assoc]

/-- C1: for every non-empty location and every HTTP outcome, the returned
dictionary is exactly one of: a record (the ten fixed keys, no error key)
or an error (error and location keys) — never both, never neither, and
never an uncaught exception (the result is total). -/
theorem C1_exactly_one (loc : String) (o : HttpOutcome) (_h : loc ≠ "") :
    (isWeatherRecordDict (get_weather loc o).result
      ∧ ¬ isWeatherErrorDict (get_weather loc o).result)
  ∨ (isWeatherErrorDict (get_weather loc o).result
      ∧ ¬ isWeatherRecordDict (get_weather loc o).result) := by
  cases o with
  | raised e =>
    right
    cases he : e.isHTTPError <;>
      simp [get_weather, he, errorDict, isWeatherRecordDict, isWeatherErrorDict, recordKeys]
  | ok data =>
    cases hx : extractWeather loc data with
    | ok r =>
      left
      simp [get_weather, hx, WeatherRecord.toDict, isWeatherRecordDict,
        isWeatherErrorDict, recordKeys]
    | error pe =>
      right
      simp [get_weather, hx, errorDict, isWeatherRecordDict, isWeatherErrorDict, recordKeys]

/-- Witness for C1 at the concrete input "London" with a null body. -/
theorem C1_exactly_one_witness :
    ("London" : String) ≠ ""
  ∧ ((isWeatherRecordDict (get_weather "London" (.ok Json.null)).result
      ∧ ¬ isWeatherErrorDict (get_weather "London" (.ok Json.null)).result)
    ∨ (isWeatherErrorDict (get_weather "London" (.ok Json.null)).result
      ∧ ¬ isWeatherRecordDict (get_weather "London" (.ok Json.null)).result)) :=
  ⟨by decide, C1_exactly_one "London" (.ok Json.null) (by decide)⟩

/-- C2 counterexample: a run of two spaces is not replaced by a single
join character; the code yields "Mason++Ohio" where the claimed
normalization yields "Mason+Ohio". -/
theorem C2_run_counterexample :
    location_clean "Mason  Ohio" = "Mason++Ohio"
  ∧ specNormalize "Mason  Ohio" = "Mason+Ohio"
  ∧ location_clean "Mason  Ohio" ≠ specNormalize "Mason  Ohio" :=
  ⟨by decide, by decide, by decide⟩

/-- C2 amended: normalization trims surrounding whitespace and replaces
each space character with one '+': a run of n internal spaces yields n
'+' characters, and internal non-space whitespace is left unchanged. -/
theorem C2_amended_space_map :
    (∀ (w1 w2 : List Char) (k n m : Nat), w1 ≠ [] → w2 ≠ [] →
      (∀ c ∈ w1, ¬ pyIsSpace c) → (∀ c ∈ w2, ¬ pyIsSpace c) →
      location_clean (String.mk (List.replicate k ' ' ++ w1 ++ List.replicate n ' '
          ++ w2 ++ List.replicate m ' '))
        = String.mk (w1 ++ List.replicate n '+' ++ w2))
  ∧ location_clean "Mason\tOhio" = "Mason\tOhio" := by
  constructor
  · intro w1 w2 k n m h1 h2 hw1 hw2
    unfold location_clean pyReplaceSpacePlus
    rw [pyStrip_sandwich w1 w2 k n m h1 h2 hw1 hw2]
    simp only [String.toList]
    rw [List.map_append, List.map_append, map_sp2plus_of_nospace hw1,
      map_sp2plus_of_nospace hw2, List.map_replicate]
    rfl
  · decide

/-- Witness for C2's amended theorem: two internal spaces between "Mason"
and "Ohio" become two '+' characters; surrounding spaces are trimmed. -/
theorem C2_amended_space_map_witness :
    ("Mason".toList ≠ [] ∧ "Ohio".toList ≠ []
      ∧ (∀ c ∈ "Mason".toList, ¬ pyIsSpace c) ∧ (∀ c ∈ "Ohio".toList, ¬ pyIsSpace c))
  ∧ location_clean (String.mk (List.replicate 2 ' ' ++ "Mason".toList
      ++ List.replicate 2 ' ' ++ "Ohio".toList ++ List.replicate 1 ' '))
      = String.mk ("Mason".toList ++ List.replicate 2 '+' ++ "Ohio".toList) :=
  ⟨⟨by decide, by decide, by decide, by decide⟩,
   C2_amended_space_map.1 "Mason".toList "Ohio".toList 2 2 1
     (by decide) (by decide) (by decide) (by decide)⟩

/-- C3 counterexample: an upstream body whose current-conditions
collection is the empty list produces a WeatherError (the subscript
raises IndexError, caught by the generic handler), not an all-sentinel
record. -/
theorem C3_empty_list_counterexample :
    (get_weather "London" (.ok emptyCurrentData)).result
      = errorDict "Unexpected error: list index out of range" "London"
  ∧ ¬ isWeatherRecordDict (get_weather "London" (.ok emptyCurrentData)).result := by
  constructor
  · rfl
  · intro hrec
    have : (get_weather "London" (.ok emptyCurrentData)).result.map Prod.fst
        = recordKeys := hrec.1
    simp [get_weather, emptyCurrentData, extractWeather, getFirstValue, pyGet, pyIndex0,
      errorDict, recordKeys, bind, Except.bind] at this

/-- C3 amended: when the current-conditions key is absent (so the code's
default takes over), every current-condition-derived field of a
successfully returned record is the sentinel "N/A". -/
theorem C3_missing_key_sentinels (loc : String) (kvs : List (String × Json))
    (h : kvs.lookup "current_condition" = none) :
    ∀ r : WeatherRecord, extractWeather loc (.obj kvs) = .ok r →
      r.temperature_f = .str "N/A" ∧ r.temperature_c = .str "N/A" ∧
      r.condition = .str "N/A" ∧ r.humidity = .str "N/A" ∧
      r.wind_speed_mph = .str "N/A" ∧ r.feels_like_f = .str "N/A" ∧
      r.observation_time = .str "N/A" := by
  intro r hr
  simp only [extractWeather, getFirstValue, pyGet, pyIndex0, h, bind, Except.bind,
    pure, Except.pure, List.lookup_nil] at hr
  repeat' split at hr
  all_goals first
    | exact (Except.noConfusion hr)
    | (cases hr; exact ⟨rfl, rfl, rfl, rfl, rfl, rfl, rfl⟩)

/-- Witness for C3's amended theorem at the empty JSON object. -/
theorem C3_missing_key_sentinels_witness :
    List.lookup "current_condition" ([] : List (String × Json)) = none
  ∧ (tokyoRecord.temperature_f = .str "N/A" ∧ tokyoRecord.temperature_c = .str "N/A" ∧
     tokyoRecord.condition = .str "N/A" ∧ tokyoRecord.humidity = .str "N/A" ∧
     tokyoRecord.wind_speed_mph = .str "N/A" ∧ tokyoRecord.feels_like_f = .str "N/A" ∧
     tokyoRecord.observation_time = .str "N/A") :=
  ⟨rfl, C3_missing_key_sentinels "Tokyo" [] rfl tokyoRecord rfl⟩

/-- C4: when the nearest-area key is absent, or its first element lacks
the areaName and country sub-fields, a successfully returned record has
area_name equal to the original requested location and country equal to
"Unknown". -/
theorem C4_nearest_area_defaults (loc : String) (kvs : List (String × Json))
    (h : kvs.lookup "nearest_area" = none
      ∨ ∃ a rest, kvs.lookup "nearest_area" = some (.arr (Json.obj a :: rest))
          ∧ a.lookup "areaName" = none ∧ a.lookup "country" = none) :
    ∀ r : WeatherRecord, extractWeather loc (.obj kvs) = .ok r →
      r.area_name = .str loc ∧ r.country = .str "Unknown" := by
  intro r hr
  rcases h with h | ⟨a, rest, h, ha, hc⟩ <;>
  · simp only [extractWeather, getFirstValue, pyGet, pyIndex0, h, bind, Except.bind,
      pure, Except.pure, List.lookup_nil, *] at hr
    repeat' split at hr
    all_goals first
      | exact (Except.noConfusion hr)
      | (cases hr; exact ⟨rfl, rfl⟩)

/-- Witness for C4 at the empty JSON object. -/
theorem C4_nearest_area_defaults_witness :
    (List.lookup "nearest_area" ([] : List (String × Json)) = none
      ∨ ∃ a rest, List.lookup "nearest_area" ([] : List (String × Json))
            = some (.arr (Json.obj a :: rest))
          ∧ a.lookup "areaName" = none ∧ a.lookup "country" = none)
  ∧ (osakaRecord.area_name = .str "Osaka" ∧ osakaRecord.country = .str "Unknown") :=
  ⟨Or.inl rfl, C4_nearest_area_defaults "Osaka" [] (Or.inl rfl) osakaRecord rfl⟩

/-- C5: with a fully populated upstream body, the ten returned fields are
exactly the mapped upstream values, and location echoes the input. -/
theorem C5_field_mapping (loc area ctry tf tc cond hum wind feels obs : String) :
    (get_weather loc (.ok (Json.obj
      [("current_condition", Json.arr [Json.obj
          [("temp_F", Json.str tf), ("temp_C", Json.str tc),
           ("weatherDesc", Json.arr [Json.obj [("value", Json.str cond)]]),
           ("humidity", Json.str hum), ("windspeedMiles", Json.str wind),
           ("FeelsLikeF", Json.str feels), ("observation_time", Json.str obs)]]),
       ("nearest_area", Json.arr [Json.obj
          [("areaName", Json.arr [Json.obj [("value", Json.str area)]]),
           ("country", Json.arr [Json.obj [("value", Json.str ctry)]])]])]))).result
    = [("location", Json.str loc),
       ("area_name", Json.str area),
       ("country", Json.str ctry),
       ("temperature_f", Json.str tf),
       ("temperature_c", Json.str tc),
       ("condition", Json.str cond),
       ("humidity", Json.str hum),
       ("wind_speed_mph", Json.str wind),
       ("feels_like_f", Json.str feels),
       ("observation_time", Json.str obs)] := by
  rfl

/-- C6: the error dictionary echoes the original (unnormalized) input as
its location; httpx.HTTPError instances (network, timeout, non-2xx) get
the transport-failure message, everything else (JSON decoding, extraction
slips) gets the generic unexpected-error message. -/
theorem C6_failure_shape (loc : String) :
    (∀ e : PyExc, e.isHTTPError = true →
      (get_weather loc (.raised e)).result
        = errorDict ("Failed to fetch weather data: " ++ e.msg) loc)
  ∧ (∀ e : PyExc, e.isHTTPError = false →
      (get_weather loc (.raised e)).result
        = errorDict ("Unexpected error: " ++ e.msg) loc)
  ∧ (∀ (data : Json) (pe : PyErr), extractWeather loc data = .error pe →
      (get_weather loc (.ok data)).result
        = errorDict ("Unexpected error: " ++ pe.msg) loc) := by
  refine ⟨?_, ?_, ?_⟩ <;> intros <;> simp [get_weather, *]

/-- Witness for C6: a timeout, a JSON-decoding failure, and a
non-dictionary body, each at the concrete location "Paris". -/
theorem C6_failure_shape_witness :
    (get_weather "Paris" (.raised (.httpxTimeout "timed out"))).result
      = errorDict "Failed to fetch weather data: timed out" "Paris"
  ∧ (get_weather "Paris" (.raised (.jsonDecodeError "Expecting value"))).result
      = errorDict "Unexpected error: Expecting value" "Paris"
  ∧ (get_weather "Paris" (.ok (Json.arr []))).result
      = errorDict "Unexpected error: 'list' object has no attribute 'get'" "Paris" :=
  ⟨(C6_failure_shape "Paris").1 _ rfl, (C6_failure_shape "Paris").2.1 _ rfl,
   (C6_failure_shape "Paris").2.2 (Json.arr []) (.attributeError "list" "get") rfl⟩

/-- C7: the configured timeout is 10 seconds, and a timeout raised by the
HTTP layer yields the transport-failure WeatherError echoing the original
location — the call returns a value rather than propagating. -/
theorem C7_timeout_error (loc m : String) :
    timeout_seconds = 10
  ∧ (get_weather loc (.raised (.httpxTimeout m))).result
      = errorDict ("Failed to fetch weather data: " ++ m) loc
  ∧ isWeatherErrorDict (get_weather loc (.raised (.httpxTimeout m))).result := by
  refine ⟨rfl, rfl, ?_⟩
  simp [get_weather, errorDict, isWeatherErrorDict, PyExc.isHTTPError]

/-- C8: the result is a function of the location and the upstream
response alone — identical responses give identical dictionaries. -/
theorem C8_deterministic (loc : String) (o1 o2 : HttpOutcome) (h : o1 = o2) :
    (get_weather loc o1).result = (get_weather loc o2).result := by rw [h]

/-- Witness for C8 at a concrete location and response. -/
theorem C8_deterministic_witness :
    HttpOutcome.ok Json.null = HttpOutcome.ok Json.null
  ∧ (get_weather "London" (.ok Json.null)).result
      = (get_weather "London" (.ok Json.null)).result :=
  ⟨rfl, C8_deterministic "London" _ _ rfl⟩

/-- C9: every call issues exactly one outbound GET, to the normalized
URL, on success and on every failure alike — no retry. -/
theorem C9_single_request (loc : String) (o : HttpOutcome) :
    (get_weather loc o).requests = [url loc]
  ∧ (get_weather loc o).requests.length = 1 :=
  ⟨rfl, rfl⟩

/-- C10: a whitespace-only location is not rejected: it is normalized to
the empty string, the GET still goes out to the bare URL, and a parseable
body still produces the ordinary record. -/
theorem C10_whitespace_only (s : String) (h : ∀ c ∈ s.toList, pyIsSpace c) :
    location_clean s = ""
  ∧ url s = "https://wttr.in/?format=j1"
  ∧ (∀ o : HttpOutcome, (get_weather s o).requests = ["https://wttr.in/?format=j1"])
  ∧ (∀ data : Json, ∀ r : WeatherRecord,
      extractWeather s data = .ok r → (get_weather s (.ok data)).result = r.toDict) := by
  have hclean : location_clean s = "" := by
    unfold location_clean pyStrip pyReplaceSpacePlus
    rw [List.dropWhile_eq_nil_iff.mpr h]
    rfl
  refine ⟨hclean, ?_, ?_, ?_⟩
  · unfold url
    rw [hclean]
    decide
  · intro o
    show [url s] = _
    unfold url
    rw [hclean]
    decide
  · intro data r hr
    simp [get_weather, hr]

/-- Witness for C10 at the two-space location. -/
theorem C10_whitespace_only_witness :
    (∀ c ∈ ("  " : String).toList, pyIsSpace c)
  ∧ location_clean "  " = ""
  ∧ url "  " = "https://wttr.in/?format=j1" :=
  ⟨by decide, (C10_whitespace_only "  " (by decide)).1,
   (C10_whitespace_only "  " (by decide)).2.1⟩
